import Mathlib

/-!
Shallow embedding of the WhatsApp malaria-broadcast bot, from
`src/MalariaPHIS_Agent/finalAppTwilio.py` (knowledge retriever, quality
assurance, orchestrator, delivery) together with the subscriber-store
variant of `src/appMultilingual.py`.  External effects (network fetches,
the Twilio transport, the filesystem, the random source, the clock) are
modelled as oracle inputs; each definition below mirrors one Python
function of the repository, with the source lines noted.
-/

namespace MalariaBot

/-- Python `str.strip()` on the underlying character list.  All texts the
claims touch are ASCII, where `Char.isWhitespace` agrees with Python's
whitespace class. -/
def stripChars (l : List Char) : List Char :=
  ((l.dropWhile Char.isWhitespace).reverse.dropWhile Char.isWhitespace).reverse

/-- Python `s.strip()`. -/
def pyStrip (s : String) : String := ⟨stripChars s.data⟩

/-- Python `s.startswith(pre)`. -/
def pyStartsWith (s pre : String) : Bool := pre.data.isPrefixOf s.data

/-- Python truthiness applied to a tier helper's result, mirroring the
`if content:` guards of the fallback chain: `None` and the empty string
are falsy, so `tierContent r = none` exactly when the tier failed to
yield nonempty content. -/
def tierContent : Option String → Option String
  | none => none
  | some s => if s == "" then none else some s

/-- The structured dict `{"message": ..., "source": ..., "timestamp": ...}`
produced by the knowledge retriever and by the orchestrator's CSV
fallback. -/
structure ContentItem where
  message : String
  source : String
  timestamp : String
deriving DecidableEq, Repr

/-- Oracle inputs of `MalariaKnowledgeRetriever.fetch_malaria_content`
(finalAppTwilio.py lines 149-237): the random primary-source choice
(`random.choice(["WHO", "FEDGEN-PHIS"])`), the outcome of each tier
helper — each helper catches its own exceptions internally and returns
`None`, modelled as `none` — and the clock reading used for timestamps. -/
structure MkrEnv where
  selectWHO : Bool
  whoInfo : Option String
  fedgenInfo : Option String
  whoRss : Option String
  fedgenRss : Option String
  csvFallbackResult : Option ContentItem
  now : String

/-- The hardcoded ultimate-fallback text of `fetch_malaria_content`
(lines 220-224; three adjacent Python string literals, concatenated). -/
def safeDefaultMessage : String :=
  "Malaria is a life-threatening disease transmitted by Anopheles mosquitoes. Prevention: Use insecticide-treated nets, indoor spraying, and antimalarial drugs. Early treatment with artemisinin-based therapies is critical for recovery."

/-- `MalariaKnowledgeRetriever.fetch_malaria_content` (lines 149-237):
random primary source, then the other primary source, then the WHO RSS
feed, then the FEDGEN RSS feed, then `_fetch_csv_fallback` (any returned
dict is truthy), then the hardcoded safe default.  The function is total:
the only raise-capable operations in the Python body are the tier
helpers, each of which catches internally and returns `None`, so the
outer `except` arm (which would return `None`) is unreachable and the
chain always produces a dict. -/
def fetch_malaria_content (env : MkrEnv) : ContentItem :=
  match tierContent (if env.selectWHO then env.whoInfo else env.fedgenInfo) with
  | some c => ⟨c, if env.selectWHO then "WHO" else "FEDGEN-PHIS", env.now⟩
  | none =>
    match tierContent (if env.selectWHO then env.fedgenInfo else env.whoInfo) with
    | some c => ⟨c, if env.selectWHO then "FEDGEN-PHIS" else "WHO", env.now⟩
    | none =>
      match tierContent env.whoRss with
      | some c => ⟨c, "WHO-RSS", env.now⟩
      | none =>
        match tierContent env.fedgenRss with
        | some c => ⟨c, "FEDGEN-RSS", env.now⟩
        | none =>
          match env.csvFallbackResult with
          | some item => item
          | none => ⟨safeDefaultMessage, "SafeDefault", env.now⟩

/-- One row of `messages.csv`: a `message` and a `source` column value. -/
structure CsvRow where
  message : String
  source : String
deriving DecidableEq, Repr

/-- The parsed `messages.csv`: column-presence flags and the rows. -/
structure CsvFile where
  hasMessageCol : Bool
  hasSourceCol : Bool
  rows : List CsvRow
deriving DecidableEq, Repr

/-- `MalariaKnowledgeRetriever._fetch_csv_fallback` (lines 351-376).
`csv = none` models `pd.read_csv` raising (caught, `None` returned);
`randIdx` is the value drawn by `random.randint(0, len(df) - 1)` — on an
empty frame that call raises (caught, `None`), which is the `none` branch
of the row lookup.  The function never reads or writes the cursor file
`last_sent.txt`; the returned source label is `"CSV-"` plus the row's own
source field. -/
def fetch_csv_fallback (csv : Option CsvFile) (randIdx : Nat) (now : String) :
    Option ContentItem :=
  match csv with
  | none => none
  | some f =>
    if !f.hasMessageCol || !f.hasSourceCol then none
    else
      match f.rows[randIdx]? with
      | some row => some ⟨row.message, "CSV-" ++ row.source, now⟩
      | none => none

/-- The cyclic-cursor update shared by
`OrchestratorAgent._get_broadcast_content` (finalAppTwilio.py line 612)
and `broadcast` (appMultilingual.py line 139):
`idx = (int(open(index_file).read()) + 1 if os.path.exists(index_file) else 0) % len(df)`.
`prev = none` models an absent cursor file. -/
def cursorStep (prev : Option Nat) (n : Nat) : Nat :=
  (match prev with
   | some p => p + 1
   | none => 0) % n

/-- The CSV branch of `OrchestratorAgent._get_broadcast_content`
(lines 602-623): column check (returning `None` before the cursor is
touched), then the cyclic-cursor update — on an empty frame `% len(df)`
raises before the cursor file is written, caught to `None` — then the
row at the new cursor, with the row's source field used verbatim (no
`CSV-` prefix here).  Returns the item together with the cursor file's
contents after the call. -/
def get_broadcast_content_csv (csv : Option CsvFile) (prev : Option Nat) (now : String) :
    Option ContentItem × Option Nat :=
  match csv with
  | none => (none, prev)
  | some f =>
    if !f.hasMessageCol || !f.hasSourceCol then (none, prev)
    else if f.rows.length == 0 then (none, prev)
    else
      let idx := cursorStep prev f.rows.length
      match f.rows[idx]? with
      | some row => (some ⟨row.message, row.source, now⟩, some idx)
      | none => (none, some idx)

/-- One value of the `subscribers.json` mapping.  Every key is an
optional JSON field: `unsubscribed`, `last_seen`, and — written only by
the appMultilingual variant — the language preference `lang`. -/
structure SubEntry where
  unsubscribed : Option Bool
  lastSeen : Option String
  lang : Option String
deriving DecidableEq, Repr

/-- JSON-dict lookup, `data.get(phone)`. -/
def storeGet : List (String × SubEntry) → String → Option SubEntry
  | [], _ => none
  | (k, v) :: rest, phone => if k = phone then some v else storeGet rest phone

/-- JSON-dict update `data[phone] = entry`: in place for an existing key,
appended for a new one, as in a Python dict. -/
def storeSet : List (String × SubEntry) → String → SubEntry → List (String × SubEntry)
  | [], phone, entry => [(phone, entry)]
  | (k, v) :: rest, phone, entry =>
    if k = phone then (k, entry) :: rest else (k, v) :: storeSet rest phone entry

/-- Python truthiness of `info.get("unsubscribed")`: an absent key
(`None`) and `False` are falsy. -/
def pyTruthyBool : Option Bool → Bool
  | some true => true
  | _ => false

/-- `get_active_subscribers` (finalAppTwilio.py lines 61-63,
appMultilingual.py lines 65-67): every recipient whose record is not
truthy-unsubscribed. -/
def get_active_subscribers (store : List (String × SubEntry)) : List String :=
  (store.filter (fun kv => !pyTruthyBool kv.2.unsubscribed)).map Prod.fst

/-- `mark_unsubscribed` of finalAppTwilio.py (lines 45-51): rebinds the
whole record to a fresh dict holding only `unsubscribed` and `last_seen`,
dropping every other previously stored key. -/
def finalApp_mark_unsubscribed (store : List (String × SubEntry)) (phone now : String) :
    List (String × SubEntry) :=
  storeSet store phone ⟨some true, some now, none⟩

/-- `record_activity` of finalAppTwilio.py (lines 53-59): updates the
existing record in place. -/
def finalApp_record_activity (store : List (String × SubEntry)) (phone now : String) :
    List (String × SubEntry) :=
  let entry := (storeGet store phone).getD ⟨none, none, none⟩
  storeSet store phone { entry with unsubscribed := some false, lastSeen := some now }

/-- `mark_unsubscribed` of appMultilingual.py (lines 43-49): updates the
existing record in place, leaving other keys — in particular `lang` —
untouched. -/
def ml_mark_unsubscribed (store : List (String × SubEntry)) (phone now : String) :
    List (String × SubEntry) :=
  let entry := (storeGet store phone).getD ⟨none, none, none⟩
  storeSet store phone { entry with unsubscribed := some true, lastSeen := some now }

/-- `record_activity` of appMultilingual.py (lines 51-59); `lang` is the
optional language argument and `if lang:` is Python truthiness (`None`
and `""` are falsy, leaving the stored preference unchanged). -/
def ml_record_activity (store : List (String × SubEntry)) (phone : String)
    (lang : Option String) (now : String) : List (String × SubEntry) :=
  let entry := (storeGet store phone).getD ⟨none, none, none⟩
  let entry1 := { entry with unsubscribed := some false, lastSeen := some now }
  let entry2 :=
    match lang with
    | some l => if l == "" then entry1 else { entry1 with lang := some l }
    | none => entry1
  storeSet store phone entry2

/-- `DeliveryAgent.get_subscribers` (finalAppTwilio.py lines 102-110).
`twilioResult` is the transport query `client.messages.list(to=..., limit=1000)`
projected to its `from_` fields; `none` models the query raising, which
the method catches and turns into `[]`.  On success the set comprehension
keeps the nonempty `whatsapp:`-prefixed addresses (deduplicated, being a
set) and intersects them with the local active set. -/
def get_subscribers (twilioResult : Option (List String))
    (store : List (String × SubEntry)) : List String :=
  match twilioResult with
  | none => []
  | some msgs =>
    let activeTwilio := (msgs.filter (fun s => !(s == "") && pyStartsWith s "whatsapp:")).dedup
    let localActive := get_active_subscribers store
    activeTwilio.filter (fun s => decide (s ∈ localActive))

/-- Filesystem oracle for audio validation: existence, byte size, and
decoded duration in milliseconds (`none` models pydub failing to decode
the artifact, `AudioSegment.from_mp3` raising). -/
structure FS where
  pathExists : String → Bool
  byteSize : String → Nat
  durationMs : String → Option Nat

/-- Path resolution at the top of `validate_audio` (lines 434-436):
`os.path.join("temp_audio", p)` for a relative `p`, where POSIX
`os.path.isabs` is a leading-slash test. -/
def resolveAudioPath (p : String) : String :=
  if pyStartsWith p "/" then p else "temp_audio/" ++ p

/-- `QualityAssuranceAgent.validate_audio` (lines 423-468): existence
check, 100-byte minimum size check, then duration measurement.  The
duration test `len(audio) / 1000.0 < self.min_audio_duration` with
`min_audio_duration = 1.0` compares an integer millisecond count against
1000 (exact in double precision for any realistic length); a decoding
failure is caught and the artifact is accepted (`return True`). -/
def validate_audio (fs : FS) (mp3Path : String) : Bool :=
  let p := resolveAudioPath mp3Path
  if !fs.pathExists p then false
  else if fs.byteSize p < 100 then false
  else
    match fs.durationMs p with
    | some ms => if ms < 1000 then false else true
    | none => true

/-- `QualityAssuranceAgent.validate_translation` (lines 390-421):
check 1 is `not ha_text or len(ha_text.strip()) == 0`, check 2 is
`ha_text.strip() == en_text.strip()`; check 3 (the 30-percent length
comparison) only prints a warning and affects no return value, and the
`except` arm is unreachable for string arguments. -/
def validate_translation (enText haText : String) : Bool :=
  if haText == "" || (pyStrip haText).length == 0 then false
  else if pyStrip haText == pyStrip enText then false
  else true

/-- Observable outcome of one `process_message` run: the returned
success flag, the number of translator and synthesizer invocations, the
number of `delivery_agent.broadcast` calls, and the recipient list the
broadcast fan-out iterates over.  Each listed recipient receives one
text-send and one media-send attempt; per-recipient send errors are
caught and skipped without changing the list (lines 112-122). -/
structure RunResult where
  success : Bool
  translatorCalls : Nat
  synthCalls : Nat
  broadcastCalls : Nat
  recipients : List String
deriving DecidableEq, Repr

/-- Oracle inputs of `OrchestratorAgent.process_message` (lines 519-583):
the message and source label, whether a QA agent was injected
(`self.qa_agent`), the outputs of the n-th translator and synthesizer
invocation (synthesizer filenames are fresh uuids, independent of the
text), the filesystem seen by audio validation, and the delivery agent's
view of the world (transport query result and local subscriber store). -/
structure PMEnv where
  enText : String
  sourceLabel : String
  qaPresent : Bool
  transOut : Nat → String
  synthOut : Nat → String
  fs : FS
  twilioResult : Option (List String)
  store : List (String × SubEntry)

/-- Delivery stage of `process_message` (lines 564-579): the bilingual
message is formatted (pure string interpolation referenced by no claim,
hence not carried in the result) and `delivery_agent.broadcast` fans out
to `get_subscribers`; the broadcast body catches every per-recipient
error, so the stage always completes and the method returns `True`. -/
def deliveryStage (env : PMEnv) (tc sc : Nat) : RunResult :=
  { success := true
  , translatorCalls := tc
  , synthCalls := sc
  , broadcastCalls := 1
  , recipients := get_subscribers env.twilioResult env.store }

/-- TTS and audio-QA stages of `process_message` (lines 549-562): one
synthesis, then — when a QA agent is present — one audio check with
exactly one retried synthesis, aborting with `return False` after a
second failed check. -/
def audioStage (env : PMEnv) (tc : Nat) : RunResult :=
  let mp3a := env.synthOut 0
  if env.qaPresent then
    if validate_audio env.fs mp3a then deliveryStage env tc 1
    else
      let mp3b := env.synthOut 1
      if validate_audio env.fs mp3b then deliveryStage env tc 2
      else
        { success := false, translatorCalls := tc, synthCalls := 2
        , broadcastCalls := 0, recipients := [] }
  else deliveryStage env tc 1

/-- `OrchestratorAgent.process_message` (lines 519-583): translation,
the translation quality gate with exactly one retried translation when a
QA agent is present (aborting with `return False` after a second failed
check, before any synthesis), then the TTS, audio-QA and delivery
stages. -/
def process_message (env : PMEnv) : RunResult :=
  let ha1 := env.transOut 0
  if env.qaPresent then
    if validate_translation env.enText ha1 then audioStage env 1
    else
      let ha2 := env.transOut 1
      if validate_translation env.enText ha2 then audioStage env 2
      else
        { success := false, translatorCalls := 2, synthCalls := 0
        , broadcastCalls := 0, recipients := [] }
  else audioStage env 1

/-- Filesystem on which every audio artifact validates. -/
def fsAllGood : FS :=
  { pathExists := fun _ => true, byteSize := fun _ => 4000, durationMs := fun _ => some 5000 }

/-- Filesystem with no files at all. -/
def fsEmpty : FS :=
  { pathExists := fun _ => false, byteSize := fun _ => 0, durationMs := fun _ => none }

/-- Filesystem holding exactly `temp_audio/ok.mp3`, large enough but with
unmeasurable duration. -/
def c9Fs : FS :=
  { pathExists := fun p => p == "temp_audio/ok.mp3", byteSize := fun _ => 4000
  , durationMs := fun _ => none }

/-- A local store with one active and one unsubscribed recipient. -/
def demoStore : List (String × SubEntry) :=
  [("whatsapp:+234", ⟨some false, some "t0", none⟩),
   ("whatsapp:+999", ⟨some true, some "t0", none⟩)]

/-- Transport-observed contact addresses: the two known recipients, one
non-WhatsApp address, and one falsy (empty) `from_` field. -/
def demoMsgs : List String := ["whatsapp:+234", "whatsapp:+999", "sms:+111", ""]

/-- A retriever environment in which every tier fails. -/
def c1Env : MkrEnv := ⟨true, none, none, none, none, none, "2026-01-01T00:00:00"⟩

/-- A pipeline environment whose translator always returns the empty
string, failing the quality gate on both attempts. -/
def c2Env : PMEnv :=
  { enText := "Use insecticide-treated nets."
  , sourceLabel := "WHO"
  , qaPresent := true
  , transOut := fun _ => ""
  , synthOut := fun _ => "a.mp3"
  , fs := fsAllGood
  , twilioResult := some demoMsgs
  , store := demoStore }

/-- Translation fails once then passes, but no audio artifact ever
validates. -/
def c3FailEnv : PMEnv :=
  { c2Env with
    transOut := fun n => if n == 0 then "" else "Yi amfani da gidan sauro."
    fs := fsEmpty }

/-- Translation fails once then passes, and audio validates. -/
def c3PassEnv : PMEnv :=
  { c3FailEnv with fs := fsAllGood }

/-- Translation fails once then passes; the first synthesized artifact
fails the audio gate (its file is missing) and the retried one passes. -/
def c3RetryEnv : PMEnv :=
  { c3FailEnv with
    synthOut := fun n => if n == 0 then "bad.mp3" else "ok.mp3"
    fs := c9Fs }

/-- A store whose single recipient has a recorded language preference. -/
def c5Store : List (String × SubEntry) :=
  [("whatsapp:+234", ⟨some false, some "t0", some "YORUBA"⟩)]

/-- A well-formed two-row messages file. -/
def c6Csv : CsvFile := ⟨true, true, [⟨"A", "s0"⟩, ⟨"B", "s1"⟩]⟩

/-- A well-formed three-row messages file. -/
def c7Csv : CsvFile := ⟨true, true, [⟨"A", "w"⟩, ⟨"B", "w"⟩, ⟨"C", "w"⟩]⟩

/-- A pipeline environment whose gates all pass but whose transport-side
subscriber query fails. -/
def c10Env : PMEnv :=
  { c2Env with
    transOut := fun _ => "Yi amfani da gidan sauro."
    twilioResult := none }

/-- A string has length zero exactly when it is empty. -/
lemma str_length_zero (s : String) : s.length = 0 ↔ s = "" := by
  cases s with
  | mk l =>
    cases l with
    | nil => exact ⟨fun _ => rfl, fun _ => rfl⟩
    | cons c cs =>
      constructor
      · intro h; simp [String.length] at h
      · intro h
        rw [show ("" : String) = ⟨[]⟩ from rfl] at h
        injection h with h2
        exact absurd h2 (by simp)

/-- Looking up the key just written by a dict update yields the written
entry. -/
lemma storeGet_storeSet_self (store : List (String × SubEntry)) (k : String) (v : SubEntry) :
    storeGet (storeSet store k v) k = some v := by
  induction store with
  | nil => simp [storeSet, storeGet]
  | cons kv rest ih =>
    obtain ⟨k1, v1⟩ := kv
    by_cases h : k1 = k
    · simp [storeSet, storeGet, h]
    · simp [storeSet, storeGet, h, ih]

/-- Membership in the active-subscriber projection of the store. -/
lemma mem_get_active_iff (store : List (String × SubEntry)) (r : String) :
    r ∈ get_active_subscribers store ↔
      ∃ e : SubEntry, (r, e) ∈ store ∧ pyTruthyBool e.unsubscribed = false := by
  simp only [get_active_subscribers, List.mem_map, List.mem_filter]
  constructor
  · rintro ⟨⟨k, v⟩, ⟨hmem, hact⟩, hk⟩
    subst hk
    exact ⟨v, hmem, by simpa using hact⟩
  · rintro ⟨e, hmem, hact⟩
    exact ⟨(r, e), ⟨hmem, by simpa using hact⟩, rfl⟩

/-- With duplicate-free keys (a JSON object), dict membership determines
the lookup result. -/
lemma storeGet_of_mem_nodup :
    ∀ (store : List (String × SubEntry)) (r : String) (e : SubEntry),
      (store.map Prod.fst).Nodup → (r, e) ∈ store → storeGet store r = some e
  | [], _, _, _, h => by cases h
  | (k, v) :: rest, r, e, hnodup, hmem => by
    have hnd : (∀ x : SubEntry, (k, x) ∉ rest) ∧ (rest.map Prod.fst).Nodup := by
      simpa using hnodup
    rcases List.mem_cons.mp hmem with heq | htail
    · injection heq with h1 h2
      subst h1; subst h2
      simp [storeGet]
    · have hk : ¬ k = r := fun h => hnd.1 e (by rw [h]; exact htail)
      simp only [storeGet, if_neg hk]
      exact storeGet_of_mem_nodup rest r e hnd.2 htail

/-- Claim C1: once the fallback chain is entered it never raises to the
caller (the embedding is total over every tier-oracle outcome), and when
every tier up to and including the tabular file fails to yield nonempty
content, `fetch_malaria_content` still returns a `ContentItem` carrying
the nonempty hardcoded message tagged `SafeDefault` — never a null-like
value. -/
theorem fetch_content_safe_default (env : MkrEnv)
    (hwho : tierContent env.whoInfo = none)
    (hfed : tierContent env.fedgenInfo = none)
    (hwrss : tierContent env.whoRss = none)
    (hfrss : tierContent env.fedgenRss = none)
    (hcsv : env.csvFallbackResult = none) :
    fetch_malaria_content env = ⟨safeDefaultMessage, "SafeDefault", env.now⟩ ∧
    safeDefaultMessage ≠ "" := by
  constructor
  · unfold fetch_malaria_content
    cases h : env.selectWHO <;> simp [h, hwho, hfed, hwrss, hfrss, hcsv]
  · decide

/-- Witness for C1 at a concrete all-tiers-failing environment. -/
theorem fetch_content_safe_default_witness :
    fetch_malaria_content c1Env = ⟨safeDefaultMessage, "SafeDefault", "2026-01-01T00:00:00"⟩ ∧
    safeDefaultMessage ≠ "" :=
  fetch_content_safe_default c1Env rfl rfl rfl rfl rfl

/-- Claim C2: when the translation quality gate fails on the initial
translation and again on the single retry, `process_message` returns
failure, the synthesizer is never invoked, no broadcast call is issued
and no recipient receives anything. -/
theorem process_message_aborts_on_double_translation_failure (env : PMEnv)
    (hqa : env.qaPresent = true)
    (h1 : validate_translation env.enText (env.transOut 0) = false)
    (h2 : validate_translation env.enText (env.transOut 1) = false) :
    process_message env =
      { success := false, translatorCalls := 2, synthCalls := 0
      , broadcastCalls := 0, recipients := [] } := by
  unfold process_message
  simp [hqa, h1, h2]

/-- Witness for C2 at a concrete environment whose translator returns
empty text on both attempts. -/
theorem process_message_aborts_witness :
    process_message c2Env =
      { success := false, translatorCalls := 2, synthCalls := 0
      , broadcastCalls := 0, recipients := [] } :=
  process_message_aborts_on_double_translation_failure c2Env rfl (by decide) (by decide)

/-- Claim C8, counterexample: the code compares the texts after
stripping, so for `en = "a" ++ nine spaces` and `ha = "a"` — a nonempty
translation that differs character-for-character from the source and is
under 30 percent of its length — `validate_translation` returns `false`,
while the claim asserts it returns `true`. -/
theorem validate_translation_trim_counterexample :
    validate_translation "a         " "a" = false ∧
    ("a" : String) ≠ "" ∧
    ("a" : String) ≠ "a         " ∧
    10 * ("a" : String).length < 3 * ("a         " : String).length := by
  refine ⟨by decide, by decide, by decide, by decide⟩

/-- Claim C8, amended: `validate_translation` returns `false` whenever
the translated text is empty or whitespace-only, and on an identical
input/output pair (for any nonempty source); when the translated text is
non-whitespace and differs from the source *after stripping surrounding
whitespace*, it returns `true` regardless of the length ratio (the
30-percent check is only a warning). -/
theorem validate_translation_properties (en ha : String) :
    (pyStrip ha = "" → validate_translation en ha = false) ∧
    (en ≠ "" → validate_translation en en = false) ∧
    (pyStrip ha ≠ "" → pyStrip ha ≠ pyStrip en → validate_translation en ha = true) := by
  refine ⟨?_, ?_, ?_⟩
  · intro h
    simp [validate_translation, h]
  · intro hne
    unfold validate_translation
    by_cases h : pyStrip en = ""
    · simp [h]
    · have h2 : ((pyStrip en).length == 0) = false := by
        rw [beq_eq_false_iff_ne]
        intro hl; exact h ((str_length_zero _).mp hl)
      simp [h2]
  · intro hne hdiff
    have h1 : (ha == "") = false := by
      rw [beq_eq_false_iff_ne]
      intro h; subst h; exact hne rfl
    have h2 : ((pyStrip ha).length == 0) = false := by
      rw [beq_eq_false_iff_ne]
      intro h; exact hne ((str_length_zero (pyStrip ha)).mp h)
    have h3 : (pyStrip ha == pyStrip en) = false := by
      rw [beq_eq_false_iff_ne]; exact hdiff
    simp [validate_translation, h1, h2, h3]

/-- Witness for the amended C8 on concrete texts: whitespace-only
rejection, identical-pair rejection, and acceptance of a differing
nonempty translation. -/
theorem validate_translation_properties_witness :
    validate_translation "Use nets." "   " = false ∧
    validate_translation "Use nets." "Use nets." = false ∧
    validate_translation "Use nets." "Yi amfani." = true := by
  have h1 := (validate_translation_properties "Use nets." "   ").1 (by decide)
  have h2 := (validate_translation_properties "Use nets." "Use nets.").2.1 (by decide)
  have h3 := (validate_translation_properties "Use nets." "Yi amfani.").2.2 (by decide) (by decide)
  exact ⟨h1, h2, h3⟩

/-- Claim C9: `validate_audio` rejects a missing artifact, rejects one
under the 100-byte minimum, rejects one whose measured duration is under
the 1000 ms minimum, and *accepts* an existing, large-enough artifact
whose duration cannot be measured — a measurement failure is provisional
acceptance, never a quality failure. -/
theorem validate_audio_properties (fs : FS) (p : String) :
    (fs.pathExists (resolveAudioPath p) = false → validate_audio fs p = false) ∧
    (fs.byteSize (resolveAudioPath p) < 100 → validate_audio fs p = false) ∧
    (∀ ms : Nat, fs.durationMs (resolveAudioPath p) = some ms → ms < 1000 →
      validate_audio fs p = false) ∧
    (fs.pathExists (resolveAudioPath p) = true → 100 ≤ fs.byteSize (resolveAudioPath p) →
      fs.durationMs (resolveAudioPath p) = none → validate_audio fs p = true) := by
  refine ⟨?_, ?_, ?_, ?_⟩
  · intro h
    simp [validate_audio, h]
  · intro h
    cases hex : fs.pathExists (resolveAudioPath p) <;> simp [validate_audio, hex, h]
  · intro ms hms hlt
    cases hex : fs.pathExists (resolveAudioPath p)
    · simp [validate_audio, hex]
    · by_cases hb : fs.byteSize (resolveAudioPath p) < 100
      · simp [validate_audio, hex, hb]
      · simp [validate_audio, hex, hb, hms, hlt]
  · intro hex hsz hdur
    have hb : ¬ fs.byteSize (resolveAudioPath p) < 100 := Nat.not_lt.mpr hsz
    simp [validate_audio, hex, hb, hdur]

/-- Witness for C9: a missing file is rejected and an existing
large-enough file with unmeasurable duration is accepted. -/
theorem validate_audio_properties_witness :
    validate_audio c9Fs "missing.mp3" = false ∧
    validate_audio c9Fs "ok.mp3" = true := by
  have h1 := (validate_audio_properties c9Fs "missing.mp3").1 (by decide)
  have h2 := (validate_audio_properties c9Fs "ok.mp3").2.2.2 (by decide) (by decide) (by decide)
  exact ⟨h1, h2⟩

/-- Claim C3, counterexample: in `c3FailEnv` the first translation fails
the gate and the retry passes, yet the run issues no delivery call at all
(the audio gate rejects both synthesized artifacts and the run aborts),
so "the pipeline proceeds to synthesis and delivery" fails as stated —
only synthesis is reached unconditionally. -/
theorem translation_retry_delivery_counterexample :
    validate_translation c3FailEnv.enText (c3FailEnv.transOut 0) = false ∧
    validate_translation c3FailEnv.enText (c3FailEnv.transOut 1) = true ∧
    process_message c3FailEnv =
      { success := false, translatorCalls := 2, synthCalls := 2
      , broadcastCalls := 0, recipients := [] } := by
  refine ⟨by decide, by decide, by decide⟩

/-- Claim C3, amended: with a quality gate configured, a failed first
translation followed by a passing retry gives exactly two translator
invocations and the run proceeds to synthesis; delivery then follows
provided the audio gate passes within its own one-retry budget — on the
first synthesized artifact, or on the retried artifact after a first
failure.  In every run the translator is invoked at most twice and the
synthesizer at most twice — one retry per gated stage, never unbounded,
never per-recipient. -/
theorem translation_retry_bounds (env : PMEnv) (hqa : env.qaPresent = true) :
    (validate_translation env.enText (env.transOut 0) = false →
     validate_translation env.enText (env.transOut 1) = true →
       (process_message env).translatorCalls = 2 ∧
       1 ≤ (process_message env).synthCalls ∧
       (validate_audio env.fs (env.synthOut 0) = true →
         (process_message env).success = true ∧
         (process_message env).broadcastCalls = 1) ∧
       (validate_audio env.fs (env.synthOut 0) = false →
        validate_audio env.fs (env.synthOut 1) = true →
         (process_message env).success = true ∧
         (process_message env).broadcastCalls = 1)) ∧
    (process_message env).translatorCalls ≤ 2 ∧
    (process_message env).synthCalls ≤ 2 := by
  cases hv1 : validate_translation env.enText (env.transOut 0) <;>
  cases hv2 : validate_translation env.enText (env.transOut 1) <;>
  cases ha1 : validate_audio env.fs (env.synthOut 0) <;>
  cases ha2 : validate_audio env.fs (env.synthOut 1) <;>
    simp [process_message, audioStage, deliveryStage, hqa, hv1, hv2, ha1, ha2]

/-- Witness for the amended C3, exercising both delivery branches: a
fail-then-pass translation delivers when the first artifact passes the
audio gate (`c3PassEnv`) and also when the first artifact fails and the
retried one passes (`c3RetryEnv`). -/
theorem translation_retry_bounds_witness :
    (process_message c3PassEnv).translatorCalls = 2 ∧
    (process_message c3PassEnv).success = true ∧
    (process_message c3PassEnv).broadcastCalls = 1 ∧
    (process_message c3RetryEnv).success = true ∧
    (process_message c3RetryEnv).broadcastCalls = 1 ∧
    (process_message c3RetryEnv).synthCalls ≤ 2 := by
  have h := translation_retry_bounds c3PassEnv rfl
  have h1 := h.1 (by decide) (by decide)
  have h2 := h1.2.2.1 (by decide)
  have g := translation_retry_bounds c3RetryEnv rfl
  have g1 := g.1 (by decide) (by decide)
  have g2 := g1.2.2.2 (by decide) (by decide)
  exact ⟨h1.1, h2.1, h2.2, g2.1, g2.2, g.2.2⟩

/-- Claim C4: with duplicate-free store keys (a JSON object) and a
successful transport query, a recipient is in the broadcast fan-out set
exactly when it is a nonempty `whatsapp:`-prefixed address in the
channel's observed-contact history *and* in the local active set; in
particular a recipient whose store record is flagged unsubscribed is
never among the broadcast recipients. -/
theorem broadcast_recipients_eligibility (msgs : List String)
    (store : List (String × SubEntry)) (r : String)
    (hnodup : (store.map Prod.fst).Nodup) :
    (r ∈ get_subscribers (some msgs) store ↔
      r ∈ msgs ∧ r ≠ "" ∧ pyStartsWith r "whatsapp:" = true ∧
        r ∈ get_active_subscribers store) ∧
    (∀ e : SubEntry, storeGet store r = some e → e.unsubscribed = some true →
      r ∉ get_subscribers (some msgs) store) := by
  have hmem : r ∈ get_subscribers (some msgs) store ↔
      r ∈ msgs ∧ r ≠ "" ∧ pyStartsWith r "whatsapp:" = true ∧
        r ∈ get_active_subscribers store := by
    simp [get_subscribers, List.mem_filter, List.mem_dedup, and_assoc]
  refine ⟨hmem, ?_⟩
  intro e hget hunsub hrin
  have hr := (hmem.mp hrin).2.2.2
  obtain ⟨e2, he2, hact⟩ := (mem_get_active_iff store r).mp hr
  have : storeGet store r = some e2 := storeGet_of_mem_nodup store r e2 hnodup he2
  rw [hget] at this
  injection this with h1
  subst h1
  rw [hunsub] at hact
  exact absurd hact (by simp [pyTruthyBool])

/-- Witness for C4: on the demo transport history and store, the active
recipient is in the fan-out set and the unsubscribed one is not. -/
theorem broadcast_recipients_eligibility_witness :
    "whatsapp:+234" ∈ get_subscribers (some demoMsgs) demoStore ∧
    "whatsapp:+999" ∉ get_subscribers (some demoMsgs) demoStore := by
  have h1 := broadcast_recipients_eligibility demoMsgs demoStore "whatsapp:+234" (by decide)
  have h2 := broadcast_recipients_eligibility demoMsgs demoStore "whatsapp:+999" (by decide)
  exact ⟨h1.1.mpr ⟨by decide, by decide, by decide, by decide⟩,
         h2.2 ⟨some true, some "t0", none⟩ (by decide) rfl⟩

/-- Claim C5, counterexample: `mark_unsubscribed` of finalAppTwilio.py
replaces the whole record, so a previously recorded language preference
(`some "YORUBA"`) is erased by an opt-out, and after the subsequent
opt-in (`record_activity`) the preference is still gone rather than
preserved. -/
theorem mark_unsubscribed_erases_lang_counterexample :
    storeGet c5Store "whatsapp:+234" = some ⟨some false, some "t0", some "YORUBA"⟩ ∧
    storeGet (finalApp_mark_unsubscribed c5Store "whatsapp:+234" "t1") "whatsapp:+234" =
      some ⟨some true, some "t1", none⟩ ∧
    storeGet (finalApp_record_activity
        (finalApp_mark_unsubscribed c5Store "whatsapp:+234" "t1") "whatsapp:+234" "t2")
        "whatsapp:+234" =
      some ⟨some false, some "t2", none⟩ ∧
    (none : Option String) ≠ some "YORUBA" := by
  refine ⟨by decide, by decide, by decide, by decide⟩

/-- Claim C5, amended: in the appMultilingual variant, `mark_unsubscribed`
only sets `unsubscribed := true` and `last_seen`, leaving a previously
recorded language preference in place, and an opt-out followed by an
opt-in ends with `unsubscribed = false` and the preference still stored;
the finalAppTwilio variant instead replaces the record wholesale, erasing
the preference (see the counterexample). -/
theorem ml_mark_unsubscribed_preserves_lang (store : List (String × SubEntry))
    (phone t1 t2 L : String) (e : SubEntry)
    (hget : storeGet store phone = some e) (hlang : e.lang = some L) :
    storeGet (ml_mark_unsubscribed store phone t1) phone =
      some ⟨some true, some t1, some L⟩ ∧
    storeGet (ml_record_activity (ml_mark_unsubscribed store phone t1) phone none t2) phone =
      some ⟨some false, some t2, some L⟩ := by
  have h1 : storeGet (ml_mark_unsubscribed store phone t1) phone =
      some ⟨some true, some t1, some L⟩ := by
    unfold ml_mark_unsubscribed
    rw [hget]
    cases e
    simp_all [storeGet_storeSet_self]
  refine ⟨h1, ?_⟩
  unfold ml_record_activity
  rw [h1]
  simp [storeGet_storeSet_self]

/-- Witness for the amended C5 on a concrete store. -/
theorem ml_mark_unsubscribed_preserves_lang_witness :
    storeGet (ml_record_activity (ml_mark_unsubscribed c5Store "whatsapp:+234" "t1")
        "whatsapp:+234" none "t2") "whatsapp:+234" =
      some ⟨some false, some "t2", some "YORUBA"⟩ :=
  (ml_mark_unsubscribed_preserves_lang c5Store "whatsapp:+234" "t1" "t2" "YORUBA"
    ⟨some false, some "t0", some "YORUBA"⟩ (by decide) rfl).2

/-- Claim C6, counterexample: with the persisted cursor at 0 and a
two-row file, the claimed advance-the-cursor semantics dictates row
`(0 + 1) % 2 = 1` (message `"B"`), but the tabular tier
`_fetch_csv_fallback` — which neither reads nor writes the cursor, as its
inputs show — returns the row drawn by the RNG (here index 0, message
`"A"` with label `"CSV-s0"`). -/
theorem csv_fallback_random_counterexample :
    fetch_csv_fallback (some c6Csv) 0 "t" = some ⟨"A", "CSV-s0", "t"⟩ ∧
    cursorStep (some 0) c6Csv.rows.length = 1 ∧
    (c6Csv.rows[1]?).map CsvRow.message = some "B" ∧
    ("A" : String) ≠ "B" := by
  refine ⟨by decide, by decide, by decide, by decide⟩

/-- Claim C6, amended: when the fallback chain reaches the tabular tier
with a well-formed file, `_fetch_csv_fallback` returns the row at a
uniformly drawn random index — leaving the persisted cyclic cursor
untouched, the cursor being used only by the orchestrator's separate
(un-prefixed) CSV path — with source label `"CSV-"` followed by that
row's own source field. -/
theorem csv_fallback_random_row (f : CsvFile) (randIdx : Nat) (now : String) (row : CsvRow)
    (hm : f.hasMessageCol = true) (hs : f.hasSourceCol = true)
    (hrow : f.rows[randIdx]? = some row) :
    fetch_csv_fallback (some f) randIdx now = some ⟨row.message, "CSV-" ++ row.source, now⟩ := by
  unfold fetch_csv_fallback
  simp [hm, hs, hrow]

/-- Witness for the amended C6 at the second row of the concrete file. -/
theorem csv_fallback_random_row_witness :
    fetch_csv_fallback (some c6Csv) 1 "t" = some ⟨"B", "CSV-s1", "t"⟩ :=
  csv_fallback_random_row c6Csv 1 "t" ⟨"B", "s1"⟩ rfl rfl (by decide)

/-- Claim C7: for any row count `n ≥ 1`, each cyclic-cursor consumption
writes back `(previous + 1) % n`, the written cursor always lies in
`[0, n)`, a cursor at `n - 1` wraps to 0, and with no cursor file the
first consumption uses row 0 and persists 0. -/
theorem cyclic_cursor_invariants (n : Nat) (hn : 1 ≤ n) :
    (∀ p : Nat, cursorStep (some p) n = (p + 1) % n) ∧
    (∀ prev : Option Nat, cursorStep prev n < n) ∧
    cursorStep (some (n - 1)) n = 0 ∧
    cursorStep none n = 0 ∧
    (∀ (f : CsvFile) (prev : Option Nat) (now : String),
      f.hasMessageCol = true → f.hasSourceCol = true → f.rows.length = n →
      (get_broadcast_content_csv (some f) prev now).2 = some (cursorStep prev n) ∧
      (get_broadcast_content_csv (some f) none now).1 =
        (f.rows[0]?).map (fun row => ⟨row.message, row.source, now⟩)) := by
  refine ⟨fun p => rfl, ?_, ?_, ?_, ?_⟩
  · intro prev
    unfold cursorStep
    exact Nat.mod_lt _ (by omega)
  · show (n - 1 + 1) % n = 0
    have h2 : n - 1 + 1 = n := by omega
    rw [h2, Nat.mod_self]
  · show 0 % n = 0
    exact Nat.zero_mod n
  · intro f prev now hm hs hlen
    have hz : (f.rows.length == 0) = false := by
      rw [hlen]; simp; omega
    constructor
    · rw [← hlen]
      unfold get_broadcast_content_csv
      cases hget : f.rows[cursorStep prev f.rows.length]? <;>
        simp [hm, hs, hz, hget]
    · unfold get_broadcast_content_csv
      have hidx : cursorStep none f.rows.length = 0 := Nat.zero_mod _
      cases hget : f.rows[0]? with
      | none =>
        exfalso
        cases hl : f.rows with
        | nil => rw [hl] at hlen; simp at hlen; omega
        | cons a l => rw [hl] at hget; simp at hget
      | some row =>
        simp [hm, hs, hz, hidx, hget]

/-- Witness for C7 at `n = 3` and a concrete three-row file: the cursor
wraps from 2 to 0, an absent cursor starts at 0, and the written cursor
is in range. -/
theorem cyclic_cursor_invariants_witness :
    cursorStep (some 2) 3 = 0 ∧
    cursorStep none 3 = 0 ∧
    cursorStep (some 0) 3 < 3 ∧
    (get_broadcast_content_csv (some c7Csv) (some 2) "t").2 = some 0 ∧
    (get_broadcast_content_csv (some c7Csv) none "t").1 = some ⟨"A", "w", "t"⟩ := by
  have h := cyclic_cursor_invariants 3 (by decide)
  have h5 := h.2.2.2.2 c7Csv (some 2) "t" rfl rfl rfl
  refine ⟨h.2.2.1, h.2.2.2.1, h.2.1 (some 0), ?_, ?_⟩
  · rw [h5.1, h.2.2.1]
  · rw [h5.2]; decide

/-- Claim C10: when the transport-side subscriber query raises,
`get_subscribers` returns the empty list instead of propagating — the
same value as for an empty contact history — so, with all quality gates
passing, the broadcast fan-out iterates zero recipients while
`process_message` still reports success. -/
theorem discovery_failure_empty_fanout (env : PMEnv)
    (htw : env.twilioResult = none)
    (hqa : env.qaPresent = true)
    (ht : validate_translation env.enText (env.transOut 0) = true)
    (ha : validate_audio env.fs (env.synthOut 0) = true) :
    process_message env =
      { success := true, translatorCalls := 1, synthCalls := 1
      , broadcastCalls := 1, recipients := [] } ∧
    (∀ store : List (String × SubEntry), get_subscribers none store = []) ∧
    get_subscribers none env.store = get_subscribers (some []) env.store := by
  refine ⟨?_, fun _ => rfl, by simp [get_subscribers]⟩
  unfold process_message audioStage deliveryStage
  simp [hqa, ht, ha, htw, get_subscribers]

/-- Witness for C10 at a concrete all-gates-passing environment with a
failing transport query. -/
theorem discovery_failure_empty_fanout_witness :
    process_message c10Env =
      { success := true, translatorCalls := 1, synthCalls := 1
      , broadcastCalls := 1, recipients := [] } :=
  (discovery_failure_empty_fanout c10Env rfl rfl (by decide) (by decide)).1

end MalariaBot
